import Mathlib

/-!
Verification of the Salary Prediction API against its specification.

Shallow embedding of `app/main.py`, `app/utils.py`, `app/schemas.py` and
`app/config.py` of the Salary_prediction_application repository.

Modelling conventions:
* Numeric request/response values (`float` in the source) are embedded as `ℚ`;
  the regression model is opaque (spec §1), so no floating-point arithmetic is
  ever performed by the code under verification, and the validation bounds
  (0, 100, 50) are exactly representable.
* The database session of a request is embedded as an explicit `DB` value;
  a handler returns its response (`Except ApiError α`) together with the
  database state after the request.
* `HTTPException(status_code, detail)` is embedded as `ApiError`, one
  constructor per status code used by the source.
* Code referenced by `app/main.py` but living in `app/models.py`,
  `app/auth.py` and `app/database.py` (absent from the sources) is modelled
  from the spec; each such definition carries a doc comment starting
  `Modelled from the spec:`.
-/

/-- A row of the `users` table (`app/models.py`, absent from the sources).
Modelled from the spec: §3 "User: identity record — numeric id (unique,
assigned on creation), username (unique, 3–50 chars), email (unique, valid
email syntax), password hash (opaque string), creation timestamp." -/
structure User where
  id : Nat
  username : String
  email : String
  hashed_password : String
  created_at : Nat
deriving Repr, DecidableEq

/-- A row of the `predictions` table (`app/models.py`, absent from the
sources). Modelled from the spec: §3 "Prediction: a single inference result —
numeric id (unique), owning user id (foreign key, required), three input
scores (each a bounded float), predicted output (float), creation
timestamp." Field names follow the constructor calls in `app/main.py`
(lines 158-164). -/
structure Prediction where
  id : Nat
  user_id : Nat
  test_score : ℚ
  interview_score : ℚ
  years_experience : ℚ
  predicted_salary : ℚ
  created_at : Nat
deriving Repr, DecidableEq

/-- The relational store a request's session sees (`app/database.py`, absent
from the sources). Modelled from the spec: §6 "relational rows for User and
Prediction as in §3, stored in a single external database". `next_user_id`
and `next_prediction_id` model the autoincrement primary keys ("numeric id
(unique, assigned on creation)"), `clock` the creation-timestamp source. -/
structure DB where
  users : List User
  predictions : List Prediction
  next_user_id : Nat
  next_prediction_id : Nat
  clock : Nat
deriving Repr, DecidableEq

/-- `fastapi.HTTPException`, one constructor per `status_code` raised by the
source: 400 (`HTTP_400_BAD_REQUEST`), 401 (`HTTP_401_UNAUTHORIZED`),
404 (`HTTP_404_NOT_FOUND`), 422 (FastAPI request-validation failure),
500 (`HTTP_500_INTERNAL_SERVER_ERROR`, also the serving layer's response to
an exception the handler lets escape), 503 (`HTTP_503_SERVICE_UNAVAILABLE`). -/
inductive ApiError where
  | badRequest (detail : String)
  | unauthorized (detail : String)
  | notFound (detail : String)
  | unprocessable (detail : String)
  | internalError (detail : String)
  | serviceUnavailable (detail : String)
deriving Repr, DecidableEq

deriving instance DecidableEq for Except

/-- The HTTP status code carried by each `ApiError`. -/
def ApiError.statusCode : ApiError → Nat
  | .badRequest _ => 400
  | .unauthorized _ => 401
  | .notFound _ => 404
  | .unprocessable _ => 422
  | .internalError _ => 500
  | .serviceUnavailable _ => 503

/-- Request body of `/register` (`app/schemas.py`, `UserCreate`). -/
structure UserCreate where
  username : String
  email : String
  password : String
deriving Repr, DecidableEq

/-- Response model of `/register` and `/me` (`app/schemas.py` lines 11-18,
`UserResponse`): `id`, `username`, `email`, `created_at` — and nothing
else. -/
structure UserResponse where
  id : Nat
  username : String
  email : String
  created_at : Nat
deriving Repr, DecidableEq

/-- FastAPI's serialization of a `User` ORM row through
`response_model=UserResponse` (`from_attributes = True`): each declared
field is read off the row; the row's `hashed_password` has no counterpart
in the schema and is dropped. -/
def UserResponse.fromUser (u : User) : UserResponse :=
  { id := u.id, username := u.username, email := u.email,
    created_at := u.created_at }

/-- Request body of `/predict` (`app/schemas.py` lines 29-32,
`PredictionInput`), before the field validation is applied. -/
structure PredictionInput where
  test_score : ℚ
  interview_score : ℚ
  years_experience : ℚ
deriving Repr, DecidableEq

/-- The pydantic field constraints of `PredictionInput`
(`app/schemas.py` lines 29-32): `test_score` and `interview_score` carry
`ge=0, le=100`, `years_experience` carries `ge=0, le=50`. -/
def PredictionInput.valid (i : PredictionInput) : Bool :=
  decide (0 ≤ i.test_score) && decide (i.test_score ≤ 100) &&
  decide (0 ≤ i.interview_score) && decide (i.interview_score ≤ 100) &&
  decide (0 ≤ i.years_experience) && decide (i.years_experience ≤ 50)

/-- Function `prepare_features` (`app/utils.py` lines 20-35): arranges the three
inputs in the fixed order `[test_score, interview_score, years_experience]`
and wraps them as a one-row 2-D array for sklearn's `predict`. -/
def prepare_features (test_score interview_score years_experience : ℚ) :
    List (List ℚ) :=
  [[test_score, interview_score, years_experience]]

/-- The loaded regression model (spec §1: "treated as an opaque function").
`model.predict` takes a 2-D feature array and either returns an array of
outputs or raises; a raised exception is embedded as `Except.error` carrying
the exception's message (`str(e)`). -/
def Model : Type :=
  List (List ℚ) → Except String (List ℚ)

/-- Handler `register` (`app/main.py` lines 65-94): reject if the username exists,
then if the email exists (each a 400 with the source's detail string);
otherwise hash the password, insert the new row and return it. The password
hasher `hash_password` lives in `app/auth.py` (absent from the sources) and
is opaque per spec §4.1, so it is taken as a parameter. The pair returned is
(response, database state after the request). -/
def register (hash_password : String → String) (db : DB)
    (user : UserCreate) : Except ApiError User × DB :=
  if db.users.any (fun u => u.username == user.username) then
    (.error (.badRequest "Username already registered"), db)
  else if db.users.any (fun u => u.email == user.email) then
    (.error (.badRequest "Email already registered"), db)
  else
    let new_user : User :=
      { id := db.next_user_id,
        username := user.username,
        email := user.email,
        hashed_password := hash_password user.password,
        created_at := db.clock }
    (.ok new_user,
     { db with users := db.users ++ [new_user],
               next_user_id := db.next_user_id + 1,
               clock := db.clock + 1 })

/-- The `/register` endpoint as seen by a client: the handler's `User` row is
serialized through `response_model=UserResponse` (`app/main.py` line 62). -/
def registerEndpoint (hash_password : String → String) (db : DB)
    (user : UserCreate) : Except ApiError UserResponse × DB :=
  match register hash_password db user with
  | (.ok u, db1) => (.ok (UserResponse.fromUser u), db1)
  | (.error e, db1) => (.error e, db1)

/-- The storage layer's uniqueness constraint on `users`. Modelled from the
spec: the columns are declared in `app/models.py` (absent from the sources);
§3 "username and email are globally unique across Users" and §5 "a
uniqueness constraint at the storage layer is the actual source of truth". -/
def violatesUserUniqueness (db : DB) (u : User) : Bool :=
  db.users.any (fun v => v.username == u.username || v.email == u.email)

/-- Handler `register` with the check-then-insert race of spec §5 made explicit: the
two duplicate pre-checks (`app/main.py` lines 69, 76) run against the state
`dbCheck` seen at check time, while `db.commit()` (line 91) runs against the
state `dbCommit` current at commit time — under a concurrent registration the
two may differ. If the committed row violates the storage uniqueness
constraint, the storage layer raises an IntegrityError; `register` has no
`except` clause (`app/main.py` lines 65-94), so the exception escapes the
handler and the serving layer answers with a generic 500. -/
def registerTwoPhase (hash_password : String → String)
    (dbCheck dbCommit : DB) (user : UserCreate) :
    Except ApiError User × DB :=
  if dbCheck.users.any (fun u => u.username == user.username) then
    (.error (.badRequest "Username already registered"), dbCommit)
  else if dbCheck.users.any (fun u => u.email == user.email) then
    (.error (.badRequest "Email already registered"), dbCommit)
  else
    let new_user : User :=
      { id := dbCommit.next_user_id,
        username := user.username,
        email := user.email,
        hashed_password := hash_password user.password,
        created_at := dbCommit.clock }
    if violatesUserUniqueness dbCommit new_user then
      (.error (.internalError "Internal Server Error"), dbCommit)
    else
      (.ok new_user,
       { dbCommit with users := dbCommit.users ++ [new_user],
                       next_user_id := dbCommit.next_user_id + 1,
                       clock := dbCommit.clock + 1 })

/-- Handler `predict_salary` (`app/main.py` lines 136-176): 503 if no model is
loaded; otherwise prepare the feature vector, run `model.predict`, take
entry 0 of the output, persist the prediction row for the authenticated
user and return it. Any exception inside the `try` block (model invocation,
or indexing an empty output) is caught by `except Exception as e` and
answered with a 500 whose detail is an f-string embedding `str(e)`
(line 175). -/
def predict_salary (model : Option Model) (current_user : User) (db : DB)
    (input_data : PredictionInput) : Except ApiError Prediction × DB :=
  match model with
  | none => (.error (.serviceUnavailable "Model not loaded"), db)
  | some m =>
    match m (prepare_features input_data.test_score
              input_data.interview_score input_data.years_experience) with
    | .error e => (.error (.internalError ("Prediction error: " ++ e)), db)
    | .ok outputs =>
      match outputs.head? with
      | none =>
        (.error (.internalError
          "Prediction error: index 0 is out of bounds for axis 0 with size 0"),
         db)
      | some predicted_salary =>
        let new_prediction : Prediction :=
          { id := db.next_prediction_id,
            user_id := current_user.id,
            test_score := input_data.test_score,
            interview_score := input_data.interview_score,
            years_experience := input_data.years_experience,
            predicted_salary := predicted_salary,
            created_at := db.clock }
        (.ok new_prediction,
         { db with predictions := db.predictions ++ [new_prediction],
                   next_prediction_id := db.next_prediction_id + 1,
                   clock := db.clock + 1 })

/-- The `/predict` endpoint as seen by a client: FastAPI validates the
request body against the `PredictionInput` field constraints before the
handler runs; a violation is answered with 422 and the handler body is
never entered. -/
def predictEndpoint (model : Option Model) (current_user : User) (db : DB)
    (input_data : PredictionInput) : Except ApiError Prediction × DB :=
  if input_data.valid then
    predict_salary model current_user db input_data
  else
    (.error (.unprocessable "Input should satisfy the field constraints"), db)

/-- The descending creation-time ordering used by `/predictions`
(`app/main.py` line 191, `order_by(Prediction.created_at.desc())`). -/
def createdDesc (a b : Prediction) : Prop :=
  b.created_at ≤ a.created_at

instance : DecidableRel createdDesc := fun a b =>
  inferInstanceAs (Decidable (b.created_at ≤ a.created_at))

instance : IsTotal Prediction createdDesc :=
  ⟨fun a b => Nat.le_total b.created_at a.created_at⟩

instance : IsTrans Prediction createdDesc :=
  ⟨fun _ _ _ hab hbc => Nat.le_trans hbc hab⟩

/-- Handler `get_predictions` (`app/main.py` lines 182-193): the rows whose
`user_id` equals the authenticated user's id, ordered by `created_at`
descending. -/
def get_predictions (db : DB) (current_user : User) : List Prediction :=
  List.insertionSort createdDesc
    (db.predictions.filter (fun p => p.user_id == current_user.id))

/-- Handler `get_prediction` (`app/main.py` lines 200-222): the first row matching
both `id == prediction_id` and `user_id == current_user.id`; 404 with
detail "Prediction not found" if there is none. -/
def get_prediction (db : DB) (current_user : User) (prediction_id : Nat) :
    Except ApiError Prediction :=
  match db.predictions.find?
      (fun p => p.id == prediction_id && p.user_id == current_user.id) with
  | none => .error (.notFound "Prediction not found")
  | some p => .ok p

/-- Handler `user_info` (`app/main.py` lines 226-230, `/me`): returns the
authenticated user through `response_model=UserResponse`. -/
def user_info (current_user : User) : UserResponse :=
  UserResponse.fromUser current_user

/-- Function `authenticate_user` (`app/auth.py`, absent from the sources). Modelled
from the spec: §4.4 (Login) "Looks up the user by username; fails ... if the
user does not exist OR the password does not verify". Password verification
(§4.1, `verify(plaintext, opaque_hash) -> bool`) is opaque and taken as a
parameter. -/
def authenticate_user (verify : String → String → Bool) (db : DB)
    (username password : String) : Option User :=
  match db.users.find? (fun u => u.username == username) with
  | none => none
  | some u => if verify password u.hashed_password then some u else none

/-- Response model of `/login` (`app/schemas.py` lines 21-23, `Token`). -/
structure Token where
  access_token : String
  token_type : String
deriving Repr, DecidableEq

/-- A signed access token, decoded (`app/auth.py`, absent from the sources).
Modelled from the spec: §4.2 "a signed, encoded token embedding the claim
and an absolute expiry instant" — the embedded username claim (`sub`, as in
`data={"sub": user.username}` at `app/main.py` line 122), the absolute
expiry instant `exp`, and the signature over both. -/
structure SignedToken where
  sub : String
  exp : Nat
  sig : Nat
deriving Repr, DecidableEq

/-- Function `create_access_token` (`app/auth.py`, absent from the sources). Modelled
from the spec: §4.2 "given an identity claim (username) and a time-to-live,
produce a signed, encoded token embedding the claim and an absolute expiry
instant". The signature scheme is opaque: `mac` maps the process-wide
secret and the payload to a signature value. -/
def create_access_token (mac : Nat → String → Nat → Nat) (secret : Nat)
    (sub : String) (exp : Nat) : SignedToken :=
  { sub := sub, exp := exp, sig := mac secret sub exp }

/-- Token verification (`app/auth.py`, absent from the sources). Modelled
from the spec: §4.2 "cryptographically validate the signature against a
process-wide secret, reject if the signature is invalid or the embedded
expiry has passed, and otherwise return the embedded username claim"; §8
"accepted for verification at any instant < T and rejected at any
instant ≥ T". -/
def verify_token (mac : Nat → String → Nat → Nat) (secret : Nat)
    (token : SignedToken) (now : Nat) : Option String :=
  if token.sig == mac secret token.sub token.exp && now < token.exp then
    some token.sub
  else
    none

/-- Constant `ACCESS_TOKEN_EXPIRE_MINUTES` (`app/config.py` line 13). -/
def ACCESS_TOKEN_EXPIRE_MINUTES : Nat := 30

/-- Handler `login` (`app/main.py` lines 98-129): authenticate; on failure a single
401 with detail "Incorrect username or password"; on success issue a token
for the username with the fixed expiry window and return it with
token_type "bearer". Token encoding to a string is opaque (`app/auth.py`
is absent), so the endpoint is embedded returning the decoded
`SignedToken`. -/
def login (verify : String → String → Bool)
    (mac : Nat → String → Nat → Nat) (secret : Nat) (db : DB) (now : Nat)
    (username password : String) : Except ApiError (SignedToken × String) :=
  match authenticate_user verify db username password with
  | none => .error (.unauthorized "Incorrect username or password")
  | some user =>
    .ok (create_access_token mac secret user.username
           (now + ACCESS_TOKEN_EXPIRE_MINUTES), "bearer")

/-! Concrete fixtures used by witness and counterexample theorems. -/

/-- A registered user. -/
def aliceUser : User :=
  { id := 1, username := "alice", email := "alice@example.com",
    hashed_password := "h1", created_at := 0 }

/-- A second registered user. -/
def bobUser : User :=
  { id := 2, username := "bob", email := "bob@example.com",
    hashed_password := "h2", created_at := 1 }

/-- An empty database. -/
def dbEmpty : DB :=
  { users := [], predictions := [], next_user_id := 1,
    next_prediction_id := 1, clock := 0 }

/-- A database holding `aliceUser` alone. -/
def dbAlice : DB :=
  { users := [aliceUser], predictions := [], next_user_id := 2,
    next_prediction_id := 1, clock := 1 }

/-- A prediction owned by `aliceUser`. -/
def predA : Prediction :=
  { id := 11, user_id := 1, test_score := 85, interview_score := 90,
    years_experience := 3, predicted_salary := 70000, created_at := 3 }

/-- A prediction owned by `bobUser`. -/
def predB : Prediction :=
  { id := 12, user_id := 2, test_score := 50, interview_score := 60,
    years_experience := 7, predicted_salary := 55000, created_at := 4 }

/-- A database holding both users and one prediction each. -/
def dbBoth : DB :=
  { users := [aliceUser, bobUser], predictions := [predA, predB],
    next_user_id := 3, next_prediction_id := 13, clock := 5 }

/-- The spec's example request: test_score=85, interview_score=90,
years_experience=3. -/
def exampleInput : PredictionInput :=
  { test_score := 85, interview_score := 90, years_experience := 3 }

/-- A model that answers 70000 on every feature array. -/
def constModel : Model := fun _ => .ok [70000]

/-- A model whose invocation raises an exception with message "boom". -/
def boomModel : Model := fun _ => .error "boom"

/-- A model whose invocation raises an exception with message "crash". -/
def crashModel : Model := fun _ => .error "crash"

/-! Claim theorems. -/

/-- C1: for every `/predict` request by an authenticated user while a model
is loaded, when the model's deterministic output on the feature vector
`[test_score, interview_score, years_experience]` has a first entry `v`,
the request succeeds, the returned record stores the three inputs verbatim
with `predicted_salary = v` for the authenticated user, and exactly that
record is appended to the prediction store. -/
theorem predict_stores_inputs_and_model_output
    (m : Model) (current_user : User) (db : DB)
    (input_data : PredictionInput) (outputs : List ℚ) (v : ℚ)
    (hm : m (prepare_features input_data.test_score
             input_data.interview_score input_data.years_experience) =
            .ok outputs)
    (hv : outputs.head? = some v) :
    ∃ p db1,
      predict_salary (some m) current_user db input_data = (.ok p, db1) ∧
      p.test_score = input_data.test_score ∧
      p.interview_score = input_data.interview_score ∧
      p.years_experience = input_data.years_experience ∧
      p.predicted_salary = v ∧
      p.user_id = current_user.id ∧
      db1.predictions = db.predictions ++ [p] := by
  have hres : predict_salary (some m) current_user db input_data =
      (.ok { id := db.next_prediction_id,
             user_id := current_user.id,
             test_score := input_data.test_score,
             interview_score := input_data.interview_score,
             years_experience := input_data.years_experience,
             predicted_salary := v,
             created_at := db.clock },
       { db with
           predictions := db.predictions ++
             [{ id := db.next_prediction_id,
                user_id := current_user.id,
                test_score := input_data.test_score,
                interview_score := input_data.interview_score,
                years_experience := input_data.years_experience,
                predicted_salary := v,
                created_at := db.clock }],
           next_prediction_id := db.next_prediction_id + 1,
           clock := db.clock + 1 }) := by
    simp only [predict_salary, hm, hv]
  exact ⟨_, _, hres, rfl, rfl, rfl, rfl, rfl, rfl⟩

/-- C1 witness: the example request of spec §8 against a loaded model. -/
theorem predict_stores_inputs_and_model_output_witness :
    ∃ p db1,
      predict_salary (some constModel) aliceUser dbAlice exampleInput =
        (.ok p, db1) ∧
      p.test_score = exampleInput.test_score ∧
      p.interview_score = exampleInput.interview_score ∧
      p.years_experience = exampleInput.years_experience ∧
      p.predicted_salary = 70000 ∧
      p.user_id = aliceUser.id ∧
      db1.predictions = dbAlice.predictions ++ [p] :=
  predict_stores_inputs_and_model_output constModel aliceUser dbAlice
    exampleInput [70000] 70000 rfl rfl

/-- C3: a `/predict` request while no model is loaded fails with the 503
"Model not loaded" outcome and leaves the database — in particular the
prediction store — unchanged. -/
theorem predict_without_model_unavailable_no_persist
    (current_user : User) (db : DB) (input_data : PredictionInput) :
    predict_salary none current_user db input_data =
      (.error (.serviceUnavailable "Model not loaded"), db) ∧
    (ApiError.serviceUnavailable "Model not loaded").statusCode = 503 :=
  ⟨rfl, rfl⟩

/-- C8 counterexample: the claim "no internal detail disclosed to the
caller" is false — `app/main.py` line 175 answers with
`detail=f"Prediction error: {str(e)}"`, so two model invocations raising
different exceptions produce different responses, and the response for
message "boom" literally embeds that message. -/
theorem prediction_error_detail_leaks :
    (predict_salary (some boomModel) aliceUser dbAlice exampleInput).1 =
      .error (.internalError "Prediction error: boom") ∧
    predict_salary (some boomModel) aliceUser dbAlice exampleInput ≠
      predict_salary (some crashModel) aliceUser dbAlice exampleInput := by
  decide

/-- C8 (amended): any exception raised during model invocation inside the
`try` block is caught — the request answers a 500 instead of crashing, and
the database is unchanged — but the 500's detail embeds the exception's
message after the prefix "Prediction error: ", so internal detail IS
disclosed to the caller. -/
theorem prediction_exception_caught_with_detail
    (m : Model) (current_user : User) (db : DB)
    (input_data : PredictionInput) (e : String)
    (hm : m (prepare_features input_data.test_score
             input_data.interview_score input_data.years_experience) =
            .error e) :
    predict_salary (some m) current_user db input_data =
      (.error (.internalError ("Prediction error: " ++ e)), db) ∧
    (ApiError.internalError ("Prediction error: " ++ e)).statusCode = 500 := by
  constructor
  · simp only [predict_salary, hm]
  · rfl

/-- C8 witness: a model raising "boom" on the example input. -/
theorem prediction_exception_caught_with_detail_witness :
    predict_salary (some boomModel) aliceUser dbAlice exampleInput =
      (.error (.internalError ("Prediction error: " ++ "boom")), dbAlice) ∧
    (ApiError.internalError ("Prediction error: " ++ "boom")).statusCode =
      500 :=
  prediction_exception_caught_with_detail boomModel aliceUser dbAlice
    exampleInput "boom" rfl

/-- The registration request used in the C2 counterexample: username
"alice" (taken concurrently), fresh email. -/
def aliceAgain : UserCreate :=
  { username := "alice", email := "other@example.com", password := "pw123456" }

/-- C2 counterexample: with an empty store at check time but "alice"
already committed by the time of `db.commit()`, the storage uniqueness
violation surfaces as the serving layer's generic 500, not as the
DuplicateUsername (400 "Username already registered") outcome the claim
requires, nor as DuplicateEmail. -/
theorem register_commit_conflict_not_mapped :
    (registerTwoPhase (fun p => p) dbEmpty dbAlice aliceAgain).1 =
      .error (.internalError "Internal Server Error") ∧
    dbAlice.users.any
      (fun u => u.username == aliceAgain.username) = true ∧
    (registerTwoPhase (fun p => p) dbEmpty dbAlice aliceAgain).1 ≠
      .error (.badRequest "Username already registered") ∧
    (registerTwoPhase (fun p => p) dbEmpty dbAlice aliceAgain).1 ≠
      .error (.badRequest "Email already registered") := by
  refine ⟨rfl, rfl, ?_, ?_⟩ <;> decide

/-- C2 (amended): a duplicate username (resp. a duplicate email) seen by
the pre-insert checks yields the 400 DuplicateUsername (resp.
DuplicateEmail) outcome with no row inserted; but a duplicate that only
materialises at insert time — the storage layer's uniqueness-constraint
violation — is not mapped by the handler (which has no `except` clause) and
surfaces as a generic 500 internal error, still with no row inserted. -/
theorem register_duplicate_outcomes
    (hash_password : String → String) (db dbCheck dbCommit : DB)
    (user : UserCreate) :
    (db.users.any (fun u => u.username == user.username) = true →
      register hash_password db user =
        (.error (.badRequest "Username already registered"), db)) ∧
    (db.users.any (fun u => u.username == user.username) = false →
     db.users.any (fun u => u.email == user.email) = true →
      register hash_password db user =
        (.error (.badRequest "Email already registered"), db)) ∧
    (dbCheck.users.any (fun u => u.username == user.username) = false →
     dbCheck.users.any (fun u => u.email == user.email) = false →
     dbCommit.users.any
       (fun v => v.username == user.username || v.email == user.email) =
         true →
      registerTwoPhase hash_password dbCheck dbCommit user =
        (.error (.internalError "Internal Server Error"), dbCommit)) := by
  refine ⟨fun h1 => ?_, fun h1 h2 => ?_, fun h1 h2 h3 => ?_⟩
  · simp only [register, h1, if_true]
  · simp only [register, h1, h2, if_true, if_false, Bool.false_eq_true]
  · simp only [registerTwoPhase, h1, h2, violatesUserUniqueness, h3,
      if_true, if_false, Bool.false_eq_true]

/-- C2 witness: duplicate username at check time, duplicate email at check
time, and a commit-time-only duplicate, each on concrete stores. -/
theorem register_duplicate_outcomes_witness :
    register (fun p => p) dbAlice aliceAgain =
      (.error (.badRequest "Username already registered"), dbAlice) ∧
    register (fun p => p) dbAlice
        { username := "carol", email := "alice@example.com",
          password := "pw123456" } =
      (.error (.badRequest "Email already registered"), dbAlice) ∧
    registerTwoPhase (fun p => p) dbEmpty dbAlice aliceAgain =
      (.error (.internalError "Internal Server Error"), dbAlice) :=
  ⟨(register_duplicate_outcomes (fun p => p) dbAlice dbEmpty dbAlice
      aliceAgain).1 rfl,
   (register_duplicate_outcomes (fun p => p) dbAlice dbEmpty dbAlice
      { username := "carol", email := "alice@example.com",
        password := "pw123456" }).2.1 rfl rfl,
   (register_duplicate_outcomes (fun p => p) dbEmpty dbEmpty dbAlice
      aliceAgain).2.2 rfl rfl rfl⟩

/-- C4: assuming the primary-key invariant (prediction ids are distinct),
an authenticated `GET /predictions/{id}` returns a record exactly when a
prediction with that id exists in the store and is owned by the
authenticated user; in every other case — nonexistent id or id owned by a
different user — it fails with the one identical 404 "Prediction not
found" outcome, so ownership mismatch is indistinguishable from
nonexistence. -/
theorem get_prediction_owned_iff (db : DB) (current_user : User)
    (prediction_id : Nat)
    (hids : (db.predictions.map Prediction.id).Nodup) :
    (∀ p, get_prediction db current_user prediction_id = .ok p ↔
      (p ∈ db.predictions ∧ p.id = prediction_id ∧
       p.user_id = current_user.id)) ∧
    (get_prediction db current_user prediction_id =
        .error (.notFound "Prediction not found") ↔
      ¬ ∃ p ∈ db.predictions,
          p.id = prediction_id ∧ p.user_id = current_user.id) := by
  constructor
  · intro p
    constructor
    · intro h
      unfold get_prediction at h
      cases hfind : db.predictions.find?
          (fun q => q.id == prediction_id &&
            q.user_id == current_user.id) with
      | none => rw [hfind] at h; exact absurd h (by simp)
      | some q =>
        rw [hfind] at h
        have hq := List.find?_some hfind
        have hmem := List.mem_of_find?_eq_some hfind
        simp only [Bool.and_eq_true, beq_iff_eq] at hq
        cases h
        exact ⟨hmem, hq.1, hq.2⟩
    · rintro ⟨hmem, hid, huid⟩
      unfold get_prediction
      cases hfind : db.predictions.find?
          (fun q => q.id == prediction_id &&
            q.user_id == current_user.id) with
      | none =>
        have := List.find?_eq_none.1 hfind p hmem
        simp [hid, huid] at this
      | some q =>
        have hq := List.find?_some hfind
        have hqmem := List.mem_of_find?_eq_some hfind
        simp only [Bool.and_eq_true, beq_iff_eq] at hq
        have heq : q = p :=
          List.inj_on_of_nodup_map hids hqmem hmem (by rw [hq.1, hid])
        rw [heq]
  · constructor
    · intro h hex
      obtain ⟨p, hmem, hid, huid⟩ := hex
      unfold get_prediction at h
      cases hfind : db.predictions.find?
          (fun q => q.id == prediction_id &&
            q.user_id == current_user.id) with
      | none =>
        have := List.find?_eq_none.1 hfind p hmem
        simp [hid, huid] at this
      | some q => rw [hfind] at h; exact absurd h (by simp)
    · intro hnone
      unfold get_prediction
      cases hfind : db.predictions.find?
          (fun q => q.id == prediction_id &&
            q.user_id == current_user.id) with
      | none => rfl
      | some q =>
        have hq := List.find?_some hfind
        have hqmem := List.mem_of_find?_eq_some hfind
        simp only [Bool.and_eq_true, beq_iff_eq] at hq
        exact absurd ⟨q, hqmem, hq.1, hq.2⟩ hnone

/-- C4 witness: prediction 11 is owned by alice; bob's request for it gets
the same 404 as a request for a nonexistent id, while alice's request
returns the record. -/
theorem get_prediction_owned_iff_witness :
    get_prediction dbBoth bobUser 11 =
      .error (.notFound "Prediction not found") ∧
    get_prediction dbBoth bobUser 999 =
      .error (.notFound "Prediction not found") ∧
    get_prediction dbBoth aliceUser 11 = .ok predA :=
  ⟨(get_prediction_owned_iff dbBoth bobUser 11 (by decide)).2.mpr
     (by decide),
   (get_prediction_owned_iff dbBoth bobUser 999 (by decide)).2.mpr
     (by decide),
   ((get_prediction_owned_iff dbBoth aliceUser 11 (by decide)).1 predA).mpr
     (by decide)⟩

/-- C5: a login for a nonexistent username and a login for an existing
username with a non-verifying password both fail with the one identical
401 "Incorrect username or password" outcome — the two responses are
equal, so the caller learns nothing about which cause occurred. -/
theorem login_failures_indistinguishable
    (verify : String → String → Bool) (mac : Nat → String → Nat → Nat)
    (secret : Nat) (db : DB) (now : Nat)
    (u1 pw1 u2 pw2 : String) (w : User)
    (h1 : ∀ u ∈ db.users, u.username ≠ u1)
    (hw : db.users.find? (fun u => u.username == u2) = some w)
    (hpw : verify pw2 w.hashed_password = false) :
    login verify mac secret db now u1 pw1 =
      .error (.unauthorized "Incorrect username or password") ∧
    login verify mac secret db now u2 pw2 =
      .error (.unauthorized "Incorrect username or password") ∧
    login verify mac secret db now u1 pw1 =
      login verify mac secret db now u2 pw2 := by
  have hfind1 : db.users.find? (fun u => u.username == u1) = none := by
    rw [List.find?_eq_none]
    intro u hu
    simpa using h1 u hu
  have e1 : login verify mac secret db now u1 pw1 =
      .error (.unauthorized "Incorrect username or password") := by
    simp [login, authenticate_user, hfind1]
  have e2 : login verify mac secret db now u2 pw2 =
      .error (.unauthorized "Incorrect username or password") := by
    simp [login, authenticate_user, hw, hpw]
  exact ⟨e1, e2, e1.trans e2.symm⟩

/-- C5 witness: against a store holding alice (hash "h1", equality-check
verifier), logging in as unknown "nobody" and as "alice" with a wrong
password produce equal 401 responses. -/
theorem login_failures_indistinguishable_witness :
    login (fun p h => p == h) (fun s _ e => s + e) 7 dbAlice 0
        "nobody" "x" =
      .error (.unauthorized "Incorrect username or password") ∧
    login (fun p h => p == h) (fun s _ e => s + e) 7 dbAlice 0
        "alice" "wrong" =
      .error (.unauthorized "Incorrect username or password") ∧
    login (fun p h => p == h) (fun s _ e => s + e) 7 dbAlice 0
        "nobody" "x" =
      login (fun p h => p == h) (fun s _ e => s + e) 7 dbAlice 0
        "alice" "wrong" :=
  login_failures_indistinguishable (fun p h => p == h)
    (fun s _ e => s + e) 7 dbAlice 0 "nobody" "x" "alice" "wrong"
    aliceUser (by decide) (by decide) (by decide)

/-- C6: `GET /predictions` returns a permutation of exactly the stored
predictions owned by the authenticated user — every owned prediction and
no other — sorted by creation time descending. -/
theorem get_predictions_owned_sorted_desc (db : DB) (current_user : User) :
    (get_predictions db current_user).Perm
      (db.predictions.filter (fun p => p.user_id == current_user.id)) ∧
    List.Sorted createdDesc (get_predictions db current_user) ∧
    (∀ p, p ∈ get_predictions db current_user ↔
      (p ∈ db.predictions ∧ p.user_id = current_user.id)) := by
  refine ⟨List.perm_insertionSort _ _, List.sorted_insertionSort _ _,
    fun p => ?_⟩
  rw [get_predictions, List.mem_insertionSort, List.mem_filter]
  simp

/-- C7: a token issued for username `sub` with absolute expiry instant `T`
verifies to the embedded username claim at every instant strictly before
`T` and is rejected at every instant greater than or equal to `T`. -/
theorem token_verification_iff_before_expiry
    (mac : Nat → String → Nat → Nat) (secret : Nat) (sub : String)
    (T now : Nat) :
    verify_token mac secret (create_access_token mac secret sub T) now =
      (if now < T then some sub else none) := by
  simp [verify_token, create_access_token]

/-- A fresh registration request used by the C9 witness. -/
def carolCreate : UserCreate :=
  { username := "carol", email := "carol@example.com",
    password := "pw123456" }

/-- C9: a successful register responds with exactly the public record
(assigned id, username, email, created_at); moreover the register
response is independent of the submitted password and of the hash
function on every store — so neither the plaintext password nor its hash
can appear in it — and the `/me` response likewise consists of the four
public fields only. -/
theorem register_response_public_no_secret
    (hash_password : String → String) (db : DB) (input : UserCreate)
    (hu : db.users.any (fun u => u.username == input.username) = false)
    (he : db.users.any (fun u => u.email == input.email) = false) :
    (registerEndpoint hash_password db input).1 =
      .ok { id := db.next_user_id, username := input.username,
            email := input.email, created_at := db.clock } ∧
    (∀ (db1 : DB) (input1 : UserCreate) (hpA hpB : String → String)
       (pwA pwB : String),
      (registerEndpoint hpA db1 { input1 with password := pwA }).1 =
        (registerEndpoint hpB db1 { input1 with password := pwB }).1) ∧
    (∀ w : User, user_info w =
      { id := w.id, username := w.username, email := w.email,
        created_at := w.created_at }) := by
  refine ⟨?_, ?_, fun w => rfl⟩
  · simp [registerEndpoint, register, hu, he, UserResponse.fromUser]
  · intro db1 input1 hpA hpB pwA pwB
    simp only [registerEndpoint, register]
    cases h1 : db1.users.any (fun u => u.username == input1.username) <;>
      cases h2 : db1.users.any (fun u => u.email == input1.email) <;>
        simp [UserResponse.fromUser]

/-- C9 witness: registering carol against the store holding alice responds
with the assigned public record. -/
theorem register_response_public_no_secret_witness :
    (registerEndpoint (fun p => String.append "H" p) dbAlice
        carolCreate).1 =
      .ok { id := 2, username := "carol", email := "carol@example.com",
            created_at := 1 } :=
  (register_response_public_no_secret (fun p => String.append "H" p)
    dbAlice carolCreate (by decide) (by decide)).1

/-- C10: a `/predict` request body passes validation exactly when
`test_score ∈ [0, 100]`, `interview_score ∈ [0, 100]` and
`years_experience ∈ [0, 50]`; an out-of-range body is answered with the
422 validation outcome with the database unchanged — whatever the model —
so the handler computes and persists nothing; an in-range body reaches the
handler `predict_salary` unchanged. -/
theorem predict_validation_bounds (model : Option Model)
    (current_user : User) (db : DB) (i : PredictionInput) :
    (i.valid = true ↔
      (0 ≤ i.test_score ∧ i.test_score ≤ 100 ∧
       0 ≤ i.interview_score ∧ i.interview_score ≤ 100 ∧
       0 ≤ i.years_experience ∧ i.years_experience ≤ 50)) ∧
    (i.valid = false →
      predictEndpoint model current_user db i =
        (.error
          (.unprocessable "Input should satisfy the field constraints"),
         db)) ∧
    (i.valid = true →
      predictEndpoint model current_user db i =
        predict_salary model current_user db i) := by
  refine ⟨?_, fun h => ?_, fun h => ?_⟩
  · simp [PredictionInput.valid, and_assoc]
  · simp [predictEndpoint, h]
  · simp [predictEndpoint, h]

/-- An out-of-range request body (test_score above 100). -/
def invalidInput : PredictionInput :=
  { test_score := 101, interview_score := 90, years_experience := 3 }

/-- C10 witness: the out-of-range body is rejected with 422 and an
unchanged store even though a model is loaded. -/
theorem predict_validation_bounds_witness :
    predictEndpoint (some constModel) aliceUser dbAlice invalidInput =
      (.error
        (.unprocessable "Input should satisfy the field constraints"),
       dbAlice) :=
  (predict_validation_bounds (some constModel) aliceUser dbAlice
    invalidInput).2.1 (by decide)
